import Mathlib

/-!
Verification of the siba(4) bus-enumeration support routines
(`sys/dev/bhnd/siba/siba_subr.c`).

The C source is embedded shallowly: machine integers become `Nat` with
explicit bounds or moduli where overflow matters, fallible functions
return their C `errno` value together with any outputs, and the two
polled register protocols are modelled by explicit state passing over an
abstract bus interface.

Error codes follow the FreeBSD errno values used by the source; the
spec's taxonomy maps onto them as NotFound = {ENOENT, ENODEV},
InvalidArgument = EINVAL, OutOfRange = {ERANGE, EFAULT},
Timeout = ETIMEDOUT.
-/

/-- FreeBSD errno: no such file or directory (NotFound). -/
def ENOENT : Nat := 2

/-- FreeBSD errno: bad address (OutOfRange in the spec's taxonomy). -/
def EFAULT : Nat := 14

/-- FreeBSD errno: operation not supported by device (NotFound). -/
def ENODEV : Nat := 19

/-- FreeBSD errno: invalid argument (InvalidArgument). -/
def EINVAL : Nat := 22

/-- FreeBSD errno: result too large (OutOfRange). -/
def ERANGE : Nat := 34

/-- FreeBSD errno: operation timed out (Timeout). -/
def ETIMEDOUT : Nat := 60

/-- Largest value representable in a 32-bit unsigned register. -/
def UINT32_MAX : Nat := 0xFFFFFFFF

/-- Modulus (2 to the 64th) of the 64-bit unsigned `rman_res_t`
resource-range type. -/
def UINT64_MOD : Nat := 18446744073709551616

/-- Modelled from the spec: fixed capacity of the per-device address-space
array (`SIBA_MAX_ADDRSPACE` in the missing `sibavar.h`); the spec fixes
it as a hardware-defined constant, e.g. 4. -/
def SIBA_MAX_ADDRSPACE : Nat := 4

/-- Modelled from the spec: size of a core's config register block
(`SIBA_CFG_SIZE` in the missing `sibareg.h`), a fixed constant. -/
def SIBA_CFG_SIZE : Nat := 0x100

/-- Modelled from the spec: offset of the fixed target-state status
register polled for the busy bit (`SIBA_CFG0_TMSTATEHIGH`). -/
def SIBA_CFG0_TMSTATEHIGH : Nat := 0x9C

/-- Modelled from the spec: the busy bit within the target-state status
register (`SIBA_TMH_BUSY`). -/
def SIBA_TMH_BUSY : Nat := 0x4

/-- Modelled from the spec: the OCP vendor code of the one known vendor
(`OCP_VENDOR_BCM` in the missing header). -/
def OCP_VENDOR_BCM : Nat := 0x4243

/-- Modelled from the spec: the generic manufacturer constant the known
OCP vendor code maps to (`BHND_MFGID_BCM`). -/
def BHND_MFGID_BCM : Nat := 0x4BF

/-- Modelled from the spec: the explicit INVALID manufacturer sentinel
(`BHND_MFGID_INVALID`). -/
def BHND_MFGID_INVALID : Nat := 0

/-- Modelled from the spec: vendor field of the IDHIGH identification
register (`SIBA_REG_GET(idhigh, IDH_VENDOR)`). -/
def SIBA_IDH_VENDOR_GET (idhigh : Nat) : Nat :=
  (idhigh >>> 16) &&& 0xFFFF

/-- Modelled from the spec: device field of the IDHIGH identification
register (`SIBA_REG_GET(idhigh, IDH_DEVICE)`). -/
def SIBA_IDH_DEVICE_GET (idhigh : Nat) : Nat :=
  (idhigh >>> 4) &&& 0xFFF

/-- Modelled from the spec: hardware revision decoded from the IDHIGH
register (`SIBA_IDH_CORE_REV(idhigh)`). -/
def SIBA_IDH_CORE_REV (idhigh : Nat) : Nat :=
  idhigh &&& 0xF

/-- Modelled from the spec: interconnect protocol (Sonics) revision field
of the IDLOW register (`SIBA_REG_GET(idlow, IDL_SBREV)`). -/
def SIBA_IDL_SBREV_GET (idlow : Nat) : Nat :=
  (idlow >>> 28) &&& 0xF

/-- Modelled from the spec: raw address-space count field of the IDLOW
register (`SIBA_REG_GET(idlow, IDL_NRADDR)`). -/
def SIBA_IDL_NRADDR_GET (idlow : Nat) : Nat :=
  (idlow >>> 12) &&& 0x7

/-- Modelled from the spec: the fixed protocol-revision threshold at which
a second config register block appears (`SIBA_IDL_SBREV_2_3`). -/
def SIBA_IDL_SBREV_2_3 : Nat := 0x3

/-- Modelled from the spec: config-block count below the revision
threshold (`SIBA_CFG_NUM_2_2`). -/
def SIBA_CFG_NUM_2_2 : Nat := 1

/-- Modelled from the spec: config-block count at or above the revision
threshold (`SIBA_CFG_NUM_2_3`). -/
def SIBA_CFG_NUM_2_3 : Nat := 2

/-- The bhnd(4) port types; siba(4) supports only `BHND_PORT_DEVICE`. -/
inductive bhnd_port_type where
  | device
  | bridge
  | agent
deriving DecidableEq, Repr

/-- The core-info fields of a parsed core identity
(`struct bhnd_core_info`). -/
structure bhnd_core_info where
  vendor : Nat
  device : Nat
  hwrev : Nat
  core_idx : Nat
  unit : Int
deriving DecidableEq, Repr

/-- A parsed per-core identity record (`struct siba_core_id`). -/
structure siba_core_id where
  core_info : bhnd_core_info
  sonics_vendor : Nat
  sonics_rev : Nat
  num_addrspace : Nat
  num_cfg_blocks : Nat
deriving DecidableEq, Repr

/-- Embedding of `siba_get_bhnd_mfgid`: map an OCP vendor code to a generic
manufacturer constant, or the INVALID sentinel if unknown. -/
def siba_get_bhnd_mfgid (ocp_vendor : Nat) : Nat :=
  if ocp_vendor = OCP_VENDOR_BCM then BHND_MFGID_BCM
  else BHND_MFGID_INVALID

/-- Embedding of `siba_parse_core_id`: decode the identification registers into a
`siba_core_id`. Total; never fails. -/
def siba_parse_core_id (idhigh idlow core_idx : Nat) (unit : Int) :
    siba_core_id :=
  let ocp_vendor := SIBA_IDH_VENDOR_GET idhigh
  let sonics_rev := SIBA_IDL_SBREV_GET idlow
  let num_addrspace := SIBA_IDL_NRADDR_GET idlow + 1
  let num_cfg :=
    if SIBA_IDL_SBREV_2_3 ≤ sonics_rev then SIBA_CFG_NUM_2_3
    else SIBA_CFG_NUM_2_2
  { core_info :=
      { vendor := siba_get_bhnd_mfgid ocp_vendor
        device := SIBA_IDH_DEVICE_GET idhigh
        hwrev := SIBA_IDH_CORE_REV idhigh
        core_idx := core_idx
        unit := unit }
    sonics_vendor := ocp_vendor
    sonics_rev := sonics_rev
    num_addrspace := num_addrspace
    num_cfg_blocks := num_cfg }

/-- Embedding of `siba_addrspace_port`: the first addrspace maps to device0, the
remainder to device1. -/
def siba_addrspace_port (addrspace : Nat) : Nat :=
  if addrspace = 0 then 0 else 1

/-- Embedding of `siba_addrspace_region`: the first addrspace maps to device0.0, the
remainder to device1.0 + (n - 1). -/
def siba_addrspace_region (addrspace : Nat) : Nat :=
  if addrspace = 0 then 0 else addrspace - 1

/-- Embedding of `siba_addrspace_port_count`: number of bhnd(4) ports advertised. -/
def siba_addrspace_port_count (num_addrspace : Nat) : Nat :=
  min num_addrspace 2

/-- Embedding of `siba_addrspace_region_count`: number of bhnd(4) regions advertised
on a port. -/
def siba_addrspace_region_count (num_addrspace port : Nat) : Nat :=
  if port = 0 then min num_addrspace 1
  else if port = 1 ∧ 2 ≤ num_addrspace then num_addrspace - 1
  else 0

/-- Embedding of `siba_is_port_valid`: only device ports below the port count are
valid. -/
def siba_is_port_valid (num_addrspace : Nat) (type : bhnd_port_type)
    (port : Nat) : Bool :=
  if type ≠ bhnd_port_type.device then false
  else if siba_addrspace_port_count num_addrspace ≤ port then false
  else true

/-- Embedding of `siba_addrspace_index`: map a type/port/region triplet to its
address-space index, or fail with ENOENT. -/
def siba_addrspace_index (num_addrspace : Nat) (type : bhnd_port_type)
    (port region : Nat) : Except Nat Nat :=
  if ¬ siba_is_port_valid num_addrspace type port then .error ENOENT
  else
    let idx : Except Nat Nat :=
      if port = 0 then .ok region
      else if port = 1 then .ok (region + 1)
      else .error ENOENT
    match idx with
    | .error e => .error e
    | .ok i => if num_addrspace ≤ i then .error ENOENT else .ok i

/-- One address-space slot of a device-info record
(`struct siba_addrspace`). -/
structure siba_addrspace where
  sa_base : Nat
  sa_size : Nat
  sa_bus_reserved : Nat
  sa_rid : Int
deriving DecidableEq, Repr

/-- One entry of the generic resource list: a resource type, identifier
and a `[r_start, r_end]` range of `r_count` units. -/
structure resource_list_entry where
  res_type : Nat
  rid : Nat
  r_start : Nat
  r_end : Nat
  r_count : Nat
deriving DecidableEq, Repr

/-- The `SYS_RES_MEMORY` resource type used for address-space regions. -/
def SYS_RES_MEMORY : Nat := 3

/-- The state of a device-info record that the verified operations
touch (`struct siba_devinfo`): the fixed-capacity address-space array,
the owned resource list, and whether the `cfg[0]` config window is
mapped. -/
structure siba_devinfo where
  addrspace : List siba_addrspace
  resources : List resource_list_entry
  cfg0_mapped : Bool
deriving DecidableEq, Repr

/-- Embedding of `siba_alloc_dinfo`: a fresh zero-initialized device-info record with
an empty resource list and no mapped config window. -/
def siba_alloc_dinfo : siba_devinfo :=
  { addrspace := List.replicate SIBA_MAX_ADDRSPACE ⟨0, 0, 0, 0⟩
    resources := []
    cfg0_mapped := false }

/-- Modelled from the spec: the generic resource-list container is an
out-of-scope external collaborator; adding a memory-range entry appends
it under the next free identifier and returns that identifier
(`resource_list_add_next`). -/
def resource_list_add_next (rl : List resource_list_entry)
    (ty start stop count : Nat) : Nat × List resource_list_entry :=
  let rid := rl.length
  (rid, rl ++ [⟨ty, rid, start, stop, count⟩])

/-- Embedding of `siba_append_dinfo_region`: validate and record an address-space
region, registering its backing memory resource. Returns the C `errno`
result together with the (possibly updated) record; the resource range
arithmetic is carried out in the 64-bit unsigned `rman_res_t` type,
hence the explicit modulus. -/
def siba_append_dinfo_region (dinfo : siba_devinfo)
    (addridx base size bus_reserved : Nat) : Nat × siba_devinfo :=
  if 0 < size ∧ UINT32_MAX - (size - 1) < base then (ERANGE, dinfo)
  else if size < bus_reserved then (ERANGE, dinfo)
  else if size = 0 then (EINVAL, dinfo)
  else if SIBA_MAX_ADDRSPACE ≤ addridx then (EINVAL, dinfo)
  else
    let r_size := size - bus_reserved
    let r_end := (base + ((r_size + (UINT64_MOD - 1)) % UINT64_MOD)) %
      UINT64_MOD
    let p := resource_list_add_next dinfo.resources SYS_RES_MEMORY base
      r_end r_size
    let sa : siba_addrspace := ⟨base, size, bus_reserved, Int.ofNat p.1⟩
    (0, { dinfo with
            addrspace := dinfo.addrspace.set addridx sa
            resources := p.2 })

/-- Modelled from the spec: the admatch negative/indirect-encoding bit
(`SIBA_AM_ADNEG`), unsupported on known hardware. -/
def SIBA_AM_ADNEG : Nat := 0x800

/-- Modelled from the spec: the 2-bit admatch type tag
(`SIBA_REG_GET(am, AM_TYPE)`). -/
def SIBA_AM_TYPE_GET (am : Nat) : Nat :=
  am &&& 0x3

/-- Modelled from the spec: base-address mask selected by type tag 0
(`SIBA_AM_BASE0_MASK`). -/
def SIBA_AM_BASE0_MASK : Nat := 0xFFFFFF00

/-- Modelled from the spec: base-address mask selected by type tag 1
(`SIBA_AM_BASE1_MASK`). -/
def SIBA_AM_BASE1_MASK : Nat := 0xFFFFF000

/-- Modelled from the spec: base-address mask selected by type tag 2
(`SIBA_AM_BASE2_MASK`). -/
def SIBA_AM_BASE2_MASK : Nat := 0xFFFF0000

/-- Modelled from the spec: interval (size-exponent) field for type tag 0
(`SIBA_REG_GET(am, AM_ADINT0)`). -/
def SIBA_AM_ADINT0_GET (am : Nat) : Nat :=
  (am >>> 3) &&& 0x1F

/-- Modelled from the spec: interval field for type tag 1
(`SIBA_REG_GET(am, AM_ADINT1)`). -/
def SIBA_AM_ADINT1_GET (am : Nat) : Nat :=
  (am >>> 3) &&& 0x1F

/-- Modelled from the spec: interval field for type tag 2
(`SIBA_REG_GET(am, AM_ADINT2)`). -/
def SIBA_AM_ADINT2_GET (am : Nat) : Nat :=
  (am >>> 3) &&& 0x1F

/-- Embedding of `siba_parse_admatch`: decode an address-match register into a
`(address, size)` pair, with `size = 1 << (interval + 1)`. -/
def siba_parse_admatch (am : Nat) : Except Nat (Nat × Nat) :=
  if am &&& SIBA_AM_ADNEG ≠ 0 then .error EINVAL
  else
    match SIBA_AM_TYPE_GET am with
    | 0 => .ok (am &&& SIBA_AM_BASE0_MASK, 1 <<< (SIBA_AM_ADINT0_GET am + 1))
    | 1 => .ok (am &&& SIBA_AM_BASE1_MASK, 1 <<< (SIBA_AM_ADINT1_GET am + 1))
    | 2 => .ok (am &&& SIBA_AM_BASE2_MASK, 1 <<< (SIBA_AM_ADINT2_GET am + 1))
    | _ => .error EINVAL

/-- An abstract register bus over states of type `S`: a read returns the
32-bit register value and the successor state, a write returns the
successor state. Delays do not change the modelled state. -/
structure SibaBus (S : Type) where
  read : S → Nat → Nat × S
  write : S → Nat → Nat → S

/-- A bus whose state counts the reads performed: the `n`-th read (from
state `n`) returns `f n`, writes are absorbed. Used to observe iteration
counts of the polling loops. -/
def countingBus (f : Nat → Nat) : SibaBus Nat :=
  { read := fun s _ => (f s, s + 1)
    write := fun s _ _ => s }

/-- The outcome of a polled register protocol: the C `errno` result, the
number of diagnostic messages emitted, and the final bus state. -/
structure SibaResult (S : Type) where
  err : Nat
  diag : Nat
  st : S
deriving Repr

/-- The polling loop of `siba_wait_target_busy`, with `fuel` the number
of remaining polls (the C loop `for (i = 0; i < usec; i += 10)` performs
`⌈usec/10⌉` polls). -/
def siba_wait_busy_loop {S : Type} (B : SibaBus S) :
    Nat → S → SibaResult S
  | 0, s => ⟨ETIMEDOUT, 1, s⟩
  | fuel + 1, s =>
    let p := B.read s SIBA_CFG0_TMSTATEHIGH
    if p.1 &&& SIBA_TMH_BUSY = 0 then ⟨0, 0, p.2⟩
    else siba_wait_busy_loop B fuel p.2

/-- Embedding of `siba_wait_target_busy`: spin for up to `usec` microseconds waiting
for the busy bit to clear; on exhaustion a diagnostic is emitted and
ETIMEDOUT returned. -/
def siba_wait_target_busy {S : Type} (B : SibaBus S)
    (dinfo : siba_devinfo) (s : S) (usec : Nat) : SibaResult S :=
  if dinfo.cfg0_mapped = false then ⟨ENODEV, 0, s⟩
  else siba_wait_busy_loop B ((usec + 9) / 10) s

/-- The commit-with-verify loop of `siba_write_target_state`, with
`fuel` the number of remaining iterations (the C loop
`for (i = 0; i < 300; i += 10)` performs 30). -/
def siba_write_state_loop {S : Type} (B : SibaBus S)
    (dinfo : siba_devinfo) (reg value mask : Nat) :
    Nat → S → SibaResult S
  | 0, s => ⟨ETIMEDOUT, 0, s⟩
  | fuel + 1, s =>
    let p1 := B.read s reg
    let rv := (p1.1 &&& (UINT32_MAX ^^^ mask)) ||| (value &&& mask)
    let s2 := B.write p1.2 reg rv
    let p3 := B.read s2 reg
    let p4 := B.read p3.2 reg
    if p4.1 &&& mask = value &&& mask then
      siba_wait_target_busy B dinfo p4.2 100000
    else siba_write_state_loop B dinfo reg value mask fuel p4.2

/-- Embedding of `siba_write_target_state`: read-modify-write a masked state register
and verify the bits latched, then wait for the busy bit to clear. -/
def siba_write_target_state {S : Type} (B : SibaBus S)
    (dinfo : siba_devinfo) (s : S) (reg value mask : Nat) :
    SibaResult S :=
  if dinfo.cfg0_mapped = false then ⟨ENODEV, 0, s⟩
  else if SIBA_CFG_SIZE - 4 < reg then ⟨EFAULT, 0, s⟩
  else siba_write_state_loop B dinfo reg value mask 30 s

/-- Characterization of `siba_addrspace_index`: it succeeds exactly on
device-type requests whose port is below the port count and whose
derived index is below the address-space count. Note it does not check
the region against `siba_addrspace_region_count`. -/
lemma siba_addrspace_index_ok_iff (n : Nat) (t : bhnd_port_type)
    (p r i : Nat) :
    siba_addrspace_index n t p r = Except.ok i ↔
      (t = bhnd_port_type.device ∧ p < min n 2 ∧ i < n ∧
        ((p = 0 ∧ i = r) ∨ (p = 1 ∧ i = r + 1))) := by
  unfold siba_addrspace_index siba_is_port_valid siba_addrspace_port_count
  cases t
  case bridge => simp
  case agent => simp
  case device =>
    by_cases hp : min n 2 ≤ p
    · simp only [hp]
      simp
      omega
    · by_cases hp0 : p = 0
      · subst hp0
        by_cases hi : n ≤ r
        · simp [hp, hi]
          omega
        · simp [hp, hi]
          omega
      · by_cases hp1 : p = 1
        · subst hp1
          by_cases hi : n ≤ r + 1
          · simp [hp, hi]
            omega
          · simp [hp, hi]
            omega
        · exact absurd (by omega : p < 2) (by omega)

/-- C1 counterexample: the (port, region) pair of an address-space index
is not unique among all pairs `siba_addrspace_index` accepts. With two
address spaces, the pair (port 0, region 1) also maps to index 1, whose
canonical pair is (port 1, region 0): the function never validates the
region against `siba_addrspace_region_count`. -/
theorem siba_addrspace_pair_not_unique :
    siba_addrspace_index 2 bhnd_port_type.device 0 1 = Except.ok 1 ∧
    ¬(0 = siba_addrspace_port 1 ∧ 1 = siba_addrspace_region 1) := by
  constructor
  · rfl
  · intro h
    simp [siba_addrspace_port] at h

/-- C1 (amended): for every address-space count `n ≤ capacity` and index
`i < n`, mapping `i` through `siba_addrspace_port`/`siba_addrspace_region`
and back through `siba_addrspace_index` (device port type) yields `i`;
index 0 maps to (port 0, region 0) and `i ≥ 1` to (port 1, region i-1);
and among pairs whose region is below the advertised
`siba_addrspace_region_count`, no other pair maps to any index. -/
theorem siba_addrspace_round_trip (n i : Nat)
    (hn : n ≤ SIBA_MAX_ADDRSPACE) (hi : i < n) :
    siba_addrspace_index n bhnd_port_type.device (siba_addrspace_port i)
        (siba_addrspace_region i) = Except.ok i ∧
    (i = 0 → siba_addrspace_port i = 0 ∧ siba_addrspace_region i = 0) ∧
    (1 ≤ i → siba_addrspace_port i = 1 ∧ siba_addrspace_region i = i - 1) ∧
    (∀ p r, r < siba_addrspace_region_count n p →
      siba_addrspace_index n bhnd_port_type.device p r = Except.ok i →
      p = siba_addrspace_port i ∧ r = siba_addrspace_region i) := by
  refine ⟨?_, ?_, ?_, ?_⟩
  · rw [siba_addrspace_index_ok_iff]
    unfold siba_addrspace_port siba_addrspace_region
    by_cases h0 : i = 0 <;> simp [h0] <;> omega
  · intro h0
    simp [siba_addrspace_port, siba_addrspace_region, h0]
  · intro h1
    have hne2 : i ≠ 0 := by omega
    simp [siba_addrspace_port, siba_addrspace_region, hne2]
  · intro p r hr hok
    rw [siba_addrspace_index_ok_iff] at hok
    obtain ⟨-, hp, hin, hcase⟩ := hok
    rcases hcase with ⟨hp0, hir⟩ | ⟨hp1, hir⟩
    · subst hp0
      simp [siba_addrspace_region_count] at hr
      have hi0 : i = 0 := by omega
      simp [siba_addrspace_port, siba_addrspace_region, hi0]
      omega
    · subst hp1
      by_cases hn2 : 2 ≤ n
      · simp only [siba_addrspace_region_count] at hr
        simp [hn2] at hr
        have hne : i ≠ 0 := by omega
        simp [siba_addrspace_port, siba_addrspace_region, hne]
        omega
      · simp only [siba_addrspace_region_count] at hr
        simp [hn2] at hr

/-- C1 witness: the round trip evaluated at n = 4, i = 2. -/
theorem siba_addrspace_round_trip_witness :
    4 ≤ SIBA_MAX_ADDRSPACE ∧ 2 < 4 ∧
    siba_addrspace_index 4 bhnd_port_type.device (siba_addrspace_port 2)
        (siba_addrspace_region 2) = Except.ok 2 :=
  ⟨by decide, by decide,
    (siba_addrspace_round_trip 4 2 (by decide) (by decide)).1⟩

/-- C9: closed forms of the port and region counts: `port_count n =
min n 2`; `region_count n 0 = min n 1`; `region_count n 1 = n - 1` for
`n ≥ 2` and 0 otherwise; `region_count n p = 0` for `p ≥ 2`. -/
theorem siba_addrspace_count_formulas (n p : Nat) :
    siba_addrspace_port_count n = min n 2 ∧
    siba_addrspace_region_count n 0 = min n 1 ∧
    (2 ≤ n → siba_addrspace_region_count n 1 = n - 1) ∧
    (n < 2 → siba_addrspace_region_count n 1 = 0) ∧
    (2 ≤ p → siba_addrspace_region_count n p = 0) := by
  unfold siba_addrspace_port_count siba_addrspace_region_count
  refine ⟨rfl, by simp, ?_, ?_, ?_⟩
  · intro h
    simp [h]
  · intro h
    have hn : ¬ (2 ≤ n) := by omega
    simp [hn]
  · intro h
    have h0 : ¬ (p = 0) := by omega
    have h1 : ¬ (p = 1 ∧ 2 ≤ n) := by omega
    simp [h0, h1]

/-- C9 witness: the region count of port 1 evaluated at n = 3. -/
theorem siba_addrspace_count_formulas_witness :
    2 ≤ 3 ∧ siba_addrspace_region_count 3 1 = 3 - 1 :=
  ⟨by decide, (siba_addrspace_count_formulas 3 0).2.2.1 (by decide)⟩

/-- C8: the identity decoder is total (it is a Lean function) and, for
every pair of raw identification registers, yields an address-space
count of the raw field plus one, a config-block count of 1 below the
revision threshold and 2 at or above it, and the mapped generic
manufacturer for the known vendor code and the INVALID sentinel for
every other code. -/
theorem siba_parse_core_id_fields (idhigh idlow core_idx : Nat)
    (unit : Int) :
    (siba_parse_core_id idhigh idlow core_idx unit).num_addrspace =
        SIBA_IDL_NRADDR_GET idlow + 1 ∧
    (SIBA_IDL_SBREV_GET idlow < SIBA_IDL_SBREV_2_3 →
        (siba_parse_core_id idhigh idlow core_idx unit).num_cfg_blocks
          = 1) ∧
    (SIBA_IDL_SBREV_2_3 ≤ SIBA_IDL_SBREV_GET idlow →
        (siba_parse_core_id idhigh idlow core_idx unit).num_cfg_blocks
          = 2) ∧
    (SIBA_IDH_VENDOR_GET idhigh = OCP_VENDOR_BCM →
        (siba_parse_core_id idhigh idlow core_idx unit).core_info.vendor
          = BHND_MFGID_BCM) ∧
    (SIBA_IDH_VENDOR_GET idhigh ≠ OCP_VENDOR_BCM →
        (siba_parse_core_id idhigh idlow core_idx unit).core_info.vendor
          = BHND_MFGID_INVALID) := by
  unfold siba_parse_core_id siba_get_bhnd_mfgid
  refine ⟨rfl, ?_, ?_, ?_, ?_⟩
  · intro h
    have hn : ¬ (SIBA_IDL_SBREV_2_3 ≤ SIBA_IDL_SBREV_GET idlow) := by omega
    simp [hn, SIBA_CFG_NUM_2_2]
  · intro h
    simp [h, SIBA_CFG_NUM_2_3]
  · intro h
    simp [h]
  · intro h
    simp [h]

/-- C8 witness: both revision branches and both vendor branches of the
identity decoder, evaluated on concrete registers. -/
theorem siba_parse_core_id_fields_witness :
    SIBA_IDL_SBREV_GET 0 < SIBA_IDL_SBREV_2_3 ∧
    (siba_parse_core_id 0 0 0 0).num_cfg_blocks = 1 ∧
    SIBA_IDL_SBREV_2_3 ≤ SIBA_IDL_SBREV_GET 0x30000000 ∧
    (siba_parse_core_id 0 0x30000000 0 0).num_cfg_blocks = 2 :=
  ⟨by decide, (siba_parse_core_id_fields 0 0 0 0).2.1 (by decide),
    by decide,
    (siba_parse_core_id_fields 0 0x30000000 0 0).2.2.1 (by decide)⟩

/-- C7: the admatch decoder fails with EINVAL whenever the negative
encoding bit is set; otherwise it fails with EINVAL on the unsupported
type tag 3, and on tags 0, 1, 2 decodes the base by the tag-selected
mask and the size as `1 << (interval + 1)`. -/
theorem siba_parse_admatch_cases (am : Nat) :
    (am &&& SIBA_AM_ADNEG ≠ 0 →
        siba_parse_admatch am = Except.error EINVAL) ∧
    (am &&& SIBA_AM_ADNEG = 0 → SIBA_AM_TYPE_GET am = 3 →
        siba_parse_admatch am = Except.error EINVAL) ∧
    (am &&& SIBA_AM_ADNEG = 0 → SIBA_AM_TYPE_GET am = 0 →
        siba_parse_admatch am = Except.ok (am &&& SIBA_AM_BASE0_MASK,
          1 <<< (SIBA_AM_ADINT0_GET am + 1))) ∧
    (am &&& SIBA_AM_ADNEG = 0 → SIBA_AM_TYPE_GET am = 1 →
        siba_parse_admatch am = Except.ok (am &&& SIBA_AM_BASE1_MASK,
          1 <<< (SIBA_AM_ADINT1_GET am + 1))) ∧
    (am &&& SIBA_AM_ADNEG = 0 → SIBA_AM_TYPE_GET am = 2 →
        siba_parse_admatch am = Except.ok (am &&& SIBA_AM_BASE2_MASK,
          1 <<< (SIBA_AM_ADINT2_GET am + 1))) := by
  unfold siba_parse_admatch
  refine ⟨?_, ?_, ?_, ?_, ?_⟩
  · intro h
    simp [h]
  all_goals intro h ht
  all_goals rw [ht]
  all_goals simp [h]

/-- C7 witness: a raw value with type tag 0 and interval field 3 decodes
to size 16, and the negative-encoding bit forces EINVAL. -/
theorem siba_parse_admatch_cases_witness :
    (0x18 : Nat) &&& SIBA_AM_ADNEG = 0 ∧ SIBA_AM_TYPE_GET 0x18 = 0 ∧
    siba_parse_admatch 0x18 = Except.ok (0, 16) ∧
    (0x800 : Nat) &&& SIBA_AM_ADNEG ≠ 0 ∧
    siba_parse_admatch 0x800 = Except.error EINVAL := by
  refine ⟨by decide, by decide, ?_, by decide, ?_⟩
  · have h := (siba_parse_admatch_cases 0x18).2.2.1 (by decide) (by decide)
    rw [h]
    exact congrArg Except.ok (by decide)
  · exact (siba_parse_admatch_cases 0x800).1 (by decide)

/-- C2 counterexample: a region with `size = 0x10` and `bus_reserved =
0x20` is rejected with ERANGE (OutOfRange), not EINVAL
(InvalidArgument): the source checks `size < bus_reserved` with ERANGE
before the zero-length EINVAL check. -/
theorem siba_append_reserved_exceeds_size_errno :
    (siba_append_dinfo_region siba_alloc_dinfo 0 0 0x10 0x20).1 = ERANGE ∧
    ERANGE ≠ EINVAL := by
  decide

/-- C2 (amended): whenever `bus_reserved` exceeds `size` the append
fails with ERANGE (OutOfRange) and leaves the record unchanged; a
zero-length region yields EINVAL (InvalidArgument) exactly when
`bus_reserved` is also 0 — otherwise the reserved-exceeds-size ERANGE
check fires first. -/
theorem siba_append_reserved_and_zero_size (dinfo : siba_devinfo)
    (addridx base size bus_reserved : Nat) :
    (size < bus_reserved →
        siba_append_dinfo_region dinfo addridx base size bus_reserved =
          (ERANGE, dinfo)) ∧
    (size = 0 → bus_reserved = 0 →
        siba_append_dinfo_region dinfo addridx base size bus_reserved =
          (EINVAL, dinfo)) := by
  constructor
  · intro h
    by_cases h1 : 0 < size ∧ UINT32_MAX - (size - 1) < base
    · simp [siba_append_dinfo_region, h1]
    · simp [siba_append_dinfo_region, h1, h]
  · intro hs hbr
    subst hs
    subst hbr
    simp [siba_append_dinfo_region]

/-- C2 witness: the amended behavior evaluated at `size = 0x10`,
`bus_reserved = 0x20` and at `size = 0`, `bus_reserved = 0`. -/
theorem siba_append_reserved_and_zero_size_witness :
    (0x10 : Nat) < 0x20 ∧
    siba_append_dinfo_region siba_alloc_dinfo 0 0 0x10 0x20 =
      (ERANGE, siba_alloc_dinfo) ∧
    siba_append_dinfo_region siba_alloc_dinfo 0 0 0 0 =
      (EINVAL, siba_alloc_dinfo) :=
  ⟨by decide,
    (siba_append_reserved_and_zero_size siba_alloc_dinfo 0 0 0x10
      0x20).1 (by decide),
    (siba_append_reserved_and_zero_size siba_alloc_dinfo 0 0 0 0).2
      rfl rfl⟩

/-- C3 counterexample: an address-space index at the fixed capacity is
rejected with EINVAL (InvalidArgument), not ERANGE (OutOfRange). -/
theorem siba_append_capacity_errno :
    (siba_append_dinfo_region siba_alloc_dinfo 4 0 1 0).1 = EINVAL ∧
    EINVAL ≠ ERANGE := by
  decide

/-- C3 (amended): the append fails with ERANGE (OutOfRange) when
`base + (size - 1)` would exceed the 32-bit address range, fails with
EINVAL (InvalidArgument) when `addridx` is not below the fixed capacity
and the three earlier checks pass, and on every validation failure
returns the error with the device-info record unchanged. -/
theorem siba_append_validation_failures (dinfo : siba_devinfo)
    (addridx base size bus_reserved : Nat)
    (hbase : base ≤ UINT32_MAX) (hsize : size ≤ UINT32_MAX) :
    (0 < size → UINT32_MAX < base + (size - 1) →
        siba_append_dinfo_region dinfo addridx base size bus_reserved =
          (ERANGE, dinfo)) ∧
    (bus_reserved ≤ size → size ≠ 0 → SIBA_MAX_ADDRSPACE ≤ addridx →
        base + (size - 1) ≤ UINT32_MAX →
        siba_append_dinfo_region dinfo addridx base size bus_reserved =
          (EINVAL, dinfo)) ∧
    ((siba_append_dinfo_region dinfo addridx base size bus_reserved).1
        ≠ 0 →
      (siba_append_dinfo_region dinfo addridx base size bus_reserved).2
        = dinfo) := by
  refine ⟨?_, ?_, ?_⟩
  · intro h0 hov
    have hc : 0 < size ∧ UINT32_MAX - (size - 1) < base := by
      simp only [UINT32_MAX] at *
      omega
    simp [siba_append_dinfo_region, hc]
  · intro hbr hs0 hcap hov
    have h1 : ¬ (0 < size ∧ UINT32_MAX - (size - 1) < base) := by
      simp only [UINT32_MAX] at *
      omega
    have h2 : ¬ (size < bus_reserved) := by omega
    simp [siba_append_dinfo_region, h1, h2, hs0, hcap]
  · intro h
    unfold siba_append_dinfo_region at h ⊢
    split_ifs at h ⊢ <;> first | rfl | exact absurd rfl h

/-- C3 witness: the address overflow case at `base = 0xFFFFFFFF`,
`size = 2` and the capacity case at `addridx = 4`. -/
theorem siba_append_validation_failures_witness :
    (0 : Nat) < 2 ∧ UINT32_MAX < 0xFFFFFFFF + (2 - 1) ∧
    siba_append_dinfo_region siba_alloc_dinfo 0 0xFFFFFFFF 2 0 =
      (ERANGE, siba_alloc_dinfo) ∧
    siba_append_dinfo_region siba_alloc_dinfo 4 0 1 0 =
      (EINVAL, siba_alloc_dinfo) :=
  ⟨by decide, by decide,
    (siba_append_validation_failures siba_alloc_dinfo 0 0xFFFFFFFF 2 0
      (by decide) (by decide)).1 (by decide) (by decide),
    (siba_append_validation_failures siba_alloc_dinfo 4 0 1 0
      (by decide) (by decide)).2.1 (by decide) (by decide) (by decide)
      (by decide)⟩

/-- Arithmetic of the registered resource range: for a positive reserved
size within the modelled bounds, the 64-bit wrap in
`base + (r_size - 1)` does not occur. -/
lemma siba_r_end_eq (base r_size : Nat) (h1 : 1 ≤ r_size)
    (h2 : base + r_size ≤ UINT64_MOD) :
    (base + ((r_size + (UINT64_MOD - 1)) % UINT64_MOD)) % UINT64_MOD =
      base + r_size - 1 := by
  simp only [UINT64_MOD] at *
  omega

/-- C4 counterexample: `bus_reserved = size` passes all four validations
yet the registered entry does not span
`[base, base + (size - bus_reserved) - 1]`: at `base = 0`, `size = 1`,
`bus_reserved = 1` the reserved size is 0 and the 64-bit end address
wraps to `2^64 - 1`. -/
theorem siba_append_wrapped_span :
    (siba_append_dinfo_region siba_alloc_dinfo 0 0 1 1).1 = 0 ∧
    (siba_append_dinfo_region siba_alloc_dinfo 0 0 1 1).2.resources =
      [⟨SYS_RES_MEMORY, 0, 0, UINT64_MOD - 1, 0⟩] ∧
    UINT64_MOD - 1 ≠ 0 + (1 - 1) - 1 := by
  refine ⟨rfl, rfl, by decide⟩

/-- C4 (amended): every input passing the four validations with
`bus_reserved` strictly below `size` succeeds: the slot at `addridx`
receives base, size, bus_reserved and the fresh resource identifier, no
other slot changes, and exactly one memory resource-list entry spanning
`[base, base + (size - bus_reserved) - 1]` is appended (when
`bus_reserved = size`, the entry instead has count 0 and a wrapped
64-bit end address). -/
theorem siba_append_success (dinfo : siba_devinfo)
    (addridx base size bus_reserved : Nat)
    (hlen : dinfo.addrspace.length = SIBA_MAX_ADDRSPACE)
    (hbase : base ≤ UINT32_MAX) (hsize : size ≤ UINT32_MAX)
    (hov : base + (size - 1) ≤ UINT32_MAX)
    (hbr : bus_reserved < size)
    (hidx : addridx < SIBA_MAX_ADDRSPACE) :
    (siba_append_dinfo_region dinfo addridx base size bus_reserved).1
      = 0 ∧
    ((siba_append_dinfo_region dinfo addridx base size
        bus_reserved).2.addrspace)[addridx]? =
      some ⟨base, size, bus_reserved,
        Int.ofNat dinfo.resources.length⟩ ∧
    (∀ j, j ≠ addridx →
      ((siba_append_dinfo_region dinfo addridx base size
          bus_reserved).2.addrspace)[j]? = dinfo.addrspace[j]?) ∧
    (siba_append_dinfo_region dinfo addridx base size
        bus_reserved).2.resources =
      dinfo.resources ++ [⟨SYS_RES_MEMORY, dinfo.resources.length, base,
        base + (size - bus_reserved) - 1, size - bus_reserved⟩] ∧
    (siba_append_dinfo_region dinfo addridx base size
        bus_reserved).2.cfg0_mapped = dinfo.cfg0_mapped := by
  have h1 : ¬ (0 < size ∧ UINT32_MAX - (size - 1) < base) := by
    simp only [UINT32_MAX] at *
    omega
  have h2 : ¬ (size < bus_reserved) := by omega
  have h3 : ¬ (size = 0) := by omega
  have h4 : ¬ (SIBA_MAX_ADDRSPACE ≤ addridx) := by omega
  have hre : (base + ((size - bus_reserved + (UINT64_MOD - 1)) %
      UINT64_MOD)) % UINT64_MOD = base + (size - bus_reserved) - 1 := by
    apply siba_r_end_eq
    · omega
    · simp only [UINT32_MAX] at hbase hsize
      simp only [UINT64_MOD]
      omega
  have key : siba_append_dinfo_region dinfo addridx base size
      bus_reserved =
      (0, { dinfo with
        addrspace := dinfo.addrspace.set addridx
          ⟨base, size, bus_reserved, Int.ofNat dinfo.resources.length⟩
        resources := dinfo.resources ++ [⟨SYS_RES_MEMORY,
          dinfo.resources.length, base,
          base + (size - bus_reserved) - 1, size - bus_reserved⟩] }) := by
    simp only [siba_append_dinfo_region, resource_list_add_next]
    rw [if_neg h1, if_neg h2, if_neg h3, if_neg h4, hre]
  rw [key]
  refine ⟨rfl, ?_, ?_, rfl, rfl⟩
  · exact List.getElem?_set_eq_of_lt _ (by rw [hlen]; exact hidx)
  · intro j hj
    exact List.getElem?_set_ne (fun he => hj he.symm)

/-- C4 witness: `base = 0x1000`, `size = 0x1000`, `bus_reserved = 0`
registers one resource spanning `[0x1000, 0x1FFF]`. -/
theorem siba_append_success_witness :
    siba_alloc_dinfo.addrspace.length = SIBA_MAX_ADDRSPACE ∧
    (0 : Nat) < 0x1000 ∧ (0 : Nat) < SIBA_MAX_ADDRSPACE ∧
    (siba_append_dinfo_region siba_alloc_dinfo 0 0x1000 0x1000 0).1
      = 0 ∧
    (siba_append_dinfo_region siba_alloc_dinfo 0 0x1000 0x1000
        0).2.resources = [⟨SYS_RES_MEMORY, 0, 0x1000, 0x1FFF, 0x1000⟩] := by
  have h := siba_append_success siba_alloc_dinfo 0 0x1000 0x1000 0
    (by decide) (by decide) (by decide) (by decide) (by decide)
    (by decide)
  refine ⟨by decide, by decide, by decide, h.1, ?_⟩
  rw [h.2.2.2.1]
  rfl

/-- A device-info record with a mapped config window, for concrete runs
of the polled protocols. -/
def siba_dinfo_cfg0 : siba_devinfo :=
  { siba_alloc_dinfo with cfg0_mapped := true }

/-- Reads on the counting bus return the stream value at the current
counter and advance it. -/
lemma countingBus_read (f : Nat → Nat) (s r : Nat) :
    (countingBus f).read s r = (f s, s + 1) := rfl

/-- Writes on the counting bus leave the counter unchanged. -/
lemma countingBus_write (f : Nat → Nat) (s r v : Nat) :
    (countingBus f).write s r v = s := rfl

/-- On the counting bus, if every remaining poll observes the busy bit
set, the busy-wait loop exhausts its fuel, emits one diagnostic, and
times out after exactly `fuel` reads. -/
lemma siba_wait_busy_loop_all_busy (f : Nat → Nat) :
    ∀ fuel s0, (∀ k, k < fuel → f (s0 + k) &&& SIBA_TMH_BUSY ≠ 0) →
    siba_wait_busy_loop (countingBus f) fuel s0 =
      ⟨ETIMEDOUT, 1, s0 + fuel⟩ := by
  intro fuel
  induction fuel with
  | zero =>
    intro s0 h
    simp [siba_wait_busy_loop]
  | succ n ih =>
    intro s0 h
    have h0 : ¬ (f s0 &&& SIBA_TMH_BUSY = 0) := by
      have hh := h 0 (by omega)
      simpa using hh
    simp only [siba_wait_busy_loop, countingBus_read]
    rw [if_neg h0]
    have hshift : ∀ k, k < n → f (s0 + 1 + k) &&& SIBA_TMH_BUSY ≠ 0 := by
      intro k hk
      have hh := h (k + 1) (by omega)
      have he : s0 + (k + 1) = s0 + 1 + k := by omega
      rwa [he] at hh
    rw [ih (s0 + 1) hshift]
    have harith : s0 + 1 + n = s0 + (n + 1) := by omega
    rw [harith]

/-- On the counting bus, the busy-wait loop returns success at the first
poll that observes the busy bit clear, having consumed `k + 1` reads. -/
lemma siba_wait_busy_loop_first_clear (f : Nat → Nat) :
    ∀ fuel s0 k, k < fuel →
    (∀ j, j < k → f (s0 + j) &&& SIBA_TMH_BUSY ≠ 0) →
    f (s0 + k) &&& SIBA_TMH_BUSY = 0 →
    siba_wait_busy_loop (countingBus f) fuel s0 = ⟨0, 0, s0 + k + 1⟩ := by
  intro fuel
  induction fuel with
  | zero =>
    intro s0 k hk
    exact absurd hk (by omega)
  | succ n ih =>
    intro s0 k hk hbusy hclear
    simp only [siba_wait_busy_loop, countingBus_read]
    cases k with
    | zero =>
      rw [if_pos (by simpa using hclear)]
    | succ m =>
      rw [if_neg (by simpa using hbusy 0 (by omega))]
      have hb : ∀ j, j < m → f (s0 + 1 + j) &&& SIBA_TMH_BUSY ≠ 0 := by
        intro j hj
        have hh := hbusy (j + 1) (by omega)
        have he : s0 + (j + 1) = s0 + 1 + j := by omega
        rwa [he] at hh
      have hc : f (s0 + 1 + m) &&& SIBA_TMH_BUSY = 0 := by
        have he : s0 + (m + 1) = s0 + 1 + m := by omega
        rwa [he] at hclear
      rw [ih (s0 + 1) m (by omega) hb hc]
      have harith : s0 + 1 + m + 1 = s0 + (m + 1) + 1 := by omega
      rw [harith]

/-- On the counting bus, if the masked compare read of every remaining
iteration misses, the commit loop exhausts its fuel and times out after
exactly `3 * fuel` reads. -/
lemma siba_write_state_loop_all_miss (f : Nat → Nat)
    (dinfo : siba_devinfo) (reg value mask : Nat) :
    ∀ fuel s0,
    (∀ k, k < fuel → f (s0 + 3 * k + 2) &&& mask ≠ value &&& mask) →
    siba_write_state_loop (countingBus f) dinfo reg value mask fuel s0 =
      ⟨ETIMEDOUT, 0, s0 + 3 * fuel⟩ := by
  intro fuel
  induction fuel with
  | zero =>
    intro s0 h
    simp [siba_write_state_loop]
  | succ n ih =>
    intro s0 h
    have h0 : ¬ (f (s0 + 1 + 1) &&& mask = value &&& mask) := by
      have hh := h 0 (by omega)
      have he : s0 + 3 * 0 + 2 = s0 + 1 + 1 := by omega
      rwa [he] at hh
    simp only [siba_write_state_loop, countingBus_read, countingBus_write]
    rw [if_neg h0]
    have hshift : ∀ k, k < n →
        f (s0 + 1 + 1 + 1 + 3 * k + 2) &&& mask ≠ value &&& mask := by
      intro k hk
      have hh := h (k + 1) (by omega)
      have he : s0 + 3 * (k + 1) + 2 = s0 + 1 + 1 + 1 + 3 * k + 2 := by
        omega
      rwa [he] at hh
    rw [ih (s0 + 1 + 1 + 1) hshift]
    have harith : s0 + 1 + 1 + 1 + 3 * n = s0 + 3 * (n + 1) := by omega
    rw [harith]

/-- On the counting bus, the commit loop hands off to the busy-wait
phase at the first iteration whose masked compare read matches, having
consumed `3 * (k + 1)` reads. -/
lemma siba_write_state_loop_first_hit (f : Nat → Nat)
    (dinfo : siba_devinfo) (reg value mask : Nat) :
    ∀ fuel s0 k, k < fuel →
    (∀ j, j < k → f (s0 + 3 * j + 2) &&& mask ≠ value &&& mask) →
    f (s0 + 3 * k + 2) &&& mask = value &&& mask →
    siba_write_state_loop (countingBus f) dinfo reg value mask fuel s0 =
      siba_wait_target_busy (countingBus f) dinfo (s0 + 3 * k + 3)
        100000 := by
  intro fuel
  induction fuel with
  | zero =>
    intro s0 k hk
    exact absurd hk (by omega)
  | succ n ih =>
    intro s0 k hk hmiss hhit
    simp only [siba_write_state_loop, countingBus_read, countingBus_write]
    cases k with
    | zero =>
      have hc : f (s0 + 1 + 1) &&& mask = value &&& mask := by
        have he : s0 + 3 * 0 + 2 = s0 + 1 + 1 := by omega
        rwa [he] at hhit
      rw [if_pos hc]
    | succ m =>
      have h0 : ¬ (f (s0 + 1 + 1) &&& mask = value &&& mask) := by
        have hh := hmiss 0 (by omega)
        have he : s0 + 3 * 0 + 2 = s0 + 1 + 1 := by omega
        rwa [he] at hh
      rw [if_neg h0]
      have hb : ∀ j, j < m →
          f (s0 + 1 + 1 + 1 + 3 * j + 2) &&& mask ≠ value &&& mask := by
        intro j hj
        have hh := hmiss (j + 1) (by omega)
        have he : s0 + 3 * (j + 1) + 2 = s0 + 1 + 1 + 1 + 3 * j + 2 := by
          omega
        rwa [he] at hh
      have hc : f (s0 + 1 + 1 + 1 + 3 * m + 2) &&& mask =
          value &&& mask := by
        have he : s0 + 3 * (m + 1) + 2 = s0 + 1 + 1 + 1 + 3 * m + 2 := by
          omega
        rwa [he] at hhit
      rw [ih (s0 + 1 + 1 + 1) m (by omega) hb hc]
      have harith : s0 + 1 + 1 + 1 + 3 * m + 3 = s0 + 3 * (m + 1) + 3 := by
        omega
      rw [harith]

/-- C5: the target-state writer fails with ENODEV (NotFound) with no
mapped config window; fails with EFAULT (OutOfRange) for a register
offset beyond the config block; on the counting bus, if the masked
compare read misses on all 30 iterations it times out after exactly 90
reads (the full 30-iteration retry bound); and it hands off to the
busy-wait phase at the first iteration whose masked compare read equals
the masked target value. -/
theorem siba_write_target_state_spec (dinfo : siba_devinfo)
    (reg value mask : Nat) :
    (∀ (S : Type) (B : SibaBus S) (s : S), dinfo.cfg0_mapped = false →
        siba_write_target_state B dinfo s reg value mask =
          ⟨ENODEV, 0, s⟩) ∧
    (∀ (S : Type) (B : SibaBus S) (s : S), dinfo.cfg0_mapped = true →
        SIBA_CFG_SIZE - 4 < reg →
        siba_write_target_state B dinfo s reg value mask =
          ⟨EFAULT, 0, s⟩) ∧
    (∀ f s0, dinfo.cfg0_mapped = true → reg ≤ SIBA_CFG_SIZE - 4 →
        (∀ k, k < 30 → f (s0 + 3 * k + 2) &&& mask ≠ value &&& mask) →
        siba_write_target_state (countingBus f) dinfo s0 reg value mask =
          ⟨ETIMEDOUT, 0, s0 + 90⟩) ∧
    (∀ f s0 k, dinfo.cfg0_mapped = true → reg ≤ SIBA_CFG_SIZE - 4 →
        k < 30 →
        (∀ j, j < k → f (s0 + 3 * j + 2) &&& mask ≠ value &&& mask) →
        f (s0 + 3 * k + 2) &&& mask = value &&& mask →
        siba_write_target_state (countingBus f) dinfo s0 reg value mask =
          siba_wait_target_busy (countingBus f) dinfo (s0 + 3 * k + 3)
            100000) := by
  refine ⟨?_, ?_, ?_, ?_⟩
  · intro S B s h
    simp [siba_write_target_state, h]
  · intro S B s h hr
    simp [siba_write_target_state, h, hr]
  · intro f s0 h hr hmiss
    simp only [siba_write_target_state, h]
    rw [if_neg (by simp), if_neg (by omega)]
    rw [siba_write_state_loop_all_miss f dinfo reg value mask 30 s0
      hmiss]
  · intro f s0 k h hr hk hmiss hhit
    simp only [siba_write_target_state, h]
    rw [if_neg (by simp), if_neg (by omega)]
    exact siba_write_state_loop_first_hit f dinfo reg value mask 30 s0 k
      hk hmiss hhit

/-- C5 witness: with a register stream that never reflects the masked
value, the writer times out after the full retry bound (90 reads), and
with no mapped window it fails with ENODEV. -/
theorem siba_write_target_state_spec_witness :
    siba_dinfo_cfg0.cfg0_mapped = true ∧ (0 : Nat) ≤ SIBA_CFG_SIZE - 4 ∧
    siba_write_target_state (countingBus fun _ => 0) siba_dinfo_cfg0 0 0
      5 255 = ⟨ETIMEDOUT, 0, 0 + 90⟩ ∧
    siba_write_target_state (countingBus fun _ => 0) siba_alloc_dinfo 0
      0 5 255 = ⟨ENODEV, 0, 0⟩ :=
  ⟨rfl, by decide,
    (siba_write_target_state_spec siba_dinfo_cfg0 0 5 255).2.2.1
      (fun _ => 0) 0 rfl (by decide)
      (fun k hk => by
        show (0 : Nat) &&& 255 ≠ 5 &&& 255
        decide),
    (siba_write_target_state_spec siba_alloc_dinfo 0 5 255).1
      Nat (countingBus fun _ => 0) 0 rfl⟩

/-- C6 counterexample: the claim bounds the poll count by
`timeout_usec / 10`, but the loop steps its counter by 10 while it is
below `usec`, performing the ceiling of `usec / 10` polls: with
`usec = 15` and an always-busy status register, the counting bus
records 2 reads, exceeding `15 / 10 = 1`. -/
theorem siba_wait_poll_count_exceeds_quotient :
    siba_wait_target_busy (countingBus fun _ => SIBA_TMH_BUSY)
        siba_dinfo_cfg0 0 15 = ⟨ETIMEDOUT, 1, 2⟩ ∧
    ¬ (2 ≤ 15 / 10) := by
  constructor
  · rfl
  · decide

/-- C6 (amended): the busy-waiter fails with ENODEV (NotFound) when the
config window is unmapped; otherwise, on the counting bus, it polls the
status register exactly `⌈timeout_usec / 10⌉` times when the busy bit
never clears, reporting one diagnostic and failing with ETIMEDOUT, and
returns success at the first poll that observes the busy bit clear. -/
theorem siba_wait_target_busy_spec (dinfo : siba_devinfo) (usec : Nat) :
    (∀ (S : Type) (B : SibaBus S) (s : S), dinfo.cfg0_mapped = false →
        siba_wait_target_busy B dinfo s usec = ⟨ENODEV, 0, s⟩) ∧
    (∀ f s0, dinfo.cfg0_mapped = true →
        (∀ k, k < (usec + 9) / 10 → f (s0 + k) &&& SIBA_TMH_BUSY ≠ 0) →
        siba_wait_target_busy (countingBus f) dinfo s0 usec =
          ⟨ETIMEDOUT, 1, s0 + (usec + 9) / 10⟩) ∧
    (∀ f s0 k, dinfo.cfg0_mapped = true → k < (usec + 9) / 10 →
        (∀ j, j < k → f (s0 + j) &&& SIBA_TMH_BUSY ≠ 0) →
        f (s0 + k) &&& SIBA_TMH_BUSY = 0 →
        siba_wait_target_busy (countingBus f) dinfo s0 usec =
          ⟨0, 0, s0 + k + 1⟩) := by
  refine ⟨?_, ?_, ?_⟩
  · intro S B s h
    simp [siba_wait_target_busy, h]
  · intro f s0 h hb
    simp only [siba_wait_target_busy, h]
    rw [if_neg (by simp)]
    exact siba_wait_busy_loop_all_busy f ((usec + 9) / 10) s0 hb
  · intro f s0 k h hk hb hc
    simp only [siba_wait_target_busy, h]
    rw [if_neg (by simp)]
    exact siba_wait_busy_loop_first_clear f ((usec + 9) / 10) s0 k hk hb
      hc

/-- C6 witness: the busy-waiter on a stream whose busy bit is clear at
the first poll, and on an unmapped window. -/
theorem siba_wait_target_busy_spec_witness :
    siba_dinfo_cfg0.cfg0_mapped = true ∧ (0 : Nat) < (100 + 9) / 10 ∧
    siba_wait_target_busy (countingBus fun _ => 0) siba_dinfo_cfg0 0 100
      = ⟨0, 0, 0 + 0 + 1⟩ ∧
    siba_wait_target_busy (countingBus fun _ => 0) siba_alloc_dinfo 0 100
      = ⟨ENODEV, 0, 0⟩ :=
  ⟨rfl, by decide,
    (siba_wait_target_busy_spec siba_dinfo_cfg0 100).2.2 (fun _ => 0) 0
      0 rfl (by decide) (fun j hj => absurd hj (by omega))
      (by
        show (0 : Nat) &&& SIBA_TMH_BUSY = 0
        decide),
    (siba_wait_target_busy_spec siba_alloc_dinfo 100).1 Nat
      (countingBus fun _ => 0) 0 rfl⟩

/-- A single commit iteration under `mask = 0`: the masked compare
holds trivially, so the loop performs one read-modify-write (writing
back the register value unchanged), the latch read and the compare
read, then hands off to the busy-wait phase. -/
lemma siba_write_state_loop_mask_zero {S : Type} (B : SibaBus S)
    (dinfo : siba_devinfo) (reg value fuel : Nat) (s : S) :
    siba_write_state_loop B dinfo reg value 0 (fuel + 1) s =
      siba_wait_target_busy B dinfo
        ((B.read ((B.read (B.write ((B.read s reg).2) reg
          ((B.read s reg).1 &&& UINT32_MAX)) reg).2) reg).2) 100000 := by
  simp only [siba_write_state_loop, Nat.xor_zero, Nat.and_zero,
    Nat.or_zero, if_true]

/-- C10: with `mask = 0`, for any mapped config window, in-range
register offset, bus model, starting state and value, the commit loop's
masked compare holds on the first iteration, so the writer immediately
returns the result of the busy-wait phase on the state reached after
the first iteration's read, write-back of the unchanged register
value, latch read, and compare read. -/
theorem siba_write_mask_zero_commits_immediately (S : Type)
    (B : SibaBus S) (dinfo : siba_devinfo) (s : S) (reg value : Nat)
    (hm : dinfo.cfg0_mapped = true) (hr : reg ≤ SIBA_CFG_SIZE - 4) :
    siba_write_target_state B dinfo s reg value 0 =
      siba_wait_target_busy B dinfo
        ((B.read ((B.read (B.write ((B.read s reg).2) reg
          ((B.read s reg).1 &&& UINT32_MAX)) reg).2) reg).2) 100000 := by
  simp only [siba_write_target_state, hm]
  rw [if_neg (by simp), if_neg (by omega)]
  rw [show (30 : Nat) = 29 + 1 from rfl, siba_write_state_loop_mask_zero]

/-- C10 witness: with `mask = 0` on a concrete counting bus the writer
returns the busy-wait result from read-counter 3. -/
theorem siba_write_mask_zero_commits_immediately_witness :
    siba_dinfo_cfg0.cfg0_mapped = true ∧ (0 : Nat) ≤ SIBA_CFG_SIZE - 4 ∧
    siba_write_target_state (countingBus fun _ => 0) siba_dinfo_cfg0 0 0
      5 0 =
      siba_wait_target_busy (countingBus fun _ => 0) siba_dinfo_cfg0 3
        100000 := by
  refine ⟨rfl, by decide, ?_⟩
  have h := siba_write_mask_zero_commits_immediately Nat
    (countingBus fun _ => 0) siba_dinfo_cfg0 0 0 5 rfl (by decide)
  simpa [countingBus] using h
